import Mathlib

/-!
Shallow embedding of `pipeline/legend_scores.py` from the
`alltime-nfl-roster-generator` repository.

Conventions of the embedding:
* pandas cell values are `Option ℚ`, with `none` standing for a null/NaN cell;
* a pandas `Series` column of a position group is a `List (Option ℚ)`;
* a pandas boolean comparison series followed by `.mean()` becomes
  `countP / length` over the list, where a comparison against a null cell is
  `false` (as `NaN < x` is `False` in pandas) while the null cell still counts
  in the denominator;
* a Python dict built by successive assignments of distinct keys becomes an
  association list in insertion order, read with `List.lookup`;
* Python floats are modelled exactly by `ℚ`.
-/

namespace LegendScores

/-- A null-capable numeric cell of the player table (`none` models NaN). -/
abbrev Cell := Option ℚ

/-- One row of the player table, with every column used by
`calculate_attribute_scores` / `process_players`.  Rows produced by
`DataFrame.iterrows()` carry every column, so a missing value is a NaN cell,
modelled as `none`. -/
structure PlayerRow where
  player_id : String
  full_name : String
  primary_pos : Option String
  height_in : Cell
  weight_lb : Cell
  forty_time : Cell
  vertical_jump : Cell
  bench_press : Cell
  draft_pick : Cell
  career_passing_yards : Cell
  career_passing_tds : Cell
  career_rushing_yards : Cell
  career_rushing_tds : Cell
  career_receiving_yards : Cell
  career_receiving_tds : Cell
  playoff_passing_yards : Cell
  playoff_passing_tds : Cell
  playoff_rushing_yards : Cell
  playoff_receiving_yards : Cell
  playoff_receiving_tds : Cell
  def_solo_tackles : Cell
  def_sacks : Cell
  def_ints : Cell
  career_seasons : Cell
  total_career_games : Cell
  pro_bowls : Cell
  all_pros : Cell
  hof_flag : Option Bool
deriving Repr, DecidableEq

/-- Python truthiness of a nullable boolean cell: a float NaN is truthy in
Python, so a NaN cell tests as true in the guard `if row.get("hof_flag", False):`. -/
def pyTruthy : Option Bool → Bool
  | some b => b
  | none => true

/-- Embedding of `percentile_score` (legend_scores.py lines 186-196).
`pd.isna(value) or values.empty` yields the neutral 50.0; otherwise
`(values < value).mean() * 100` resp. `(values > value).mean() * 100`, where
null peer cells compare as `False` but count in the `.mean()` denominator. -/
def percentile_score (value : Cell) (values : List Cell) (higher_better : Bool) : ℚ :=
  match value with
  | none => 50
  | some v =>
    if values.isEmpty then 50
    else if higher_better then
      ((values.countP fun p => match p with | some x => decide (x < v) | none => false : ℕ) : ℚ)
        / (values.length : ℚ) * 100
    else
      ((values.countP fun p => match p with | some x => decide (v < x) | none => false : ℕ) : ℚ)
        / (values.length : ℚ) * 100

/-- Embedding of `POSITION_MAPPINGS` (legend_scores.py lines 156-176). -/
def POSITION_MAPPINGS : List (String × String) :=
  [("S", "DB"), ("CB", "DB"), ("SS", "DB"), ("FS", "DB"), ("SAF", "DB"),
   ("OLB", "LB"), ("ILB", "LB"), ("MLB", "LB"),
   ("DE", "DL"), ("DT", "DL"), ("NT", "DL"),
   ("C", "OL"), ("G", "OL"), ("T", "OL"), ("OG", "OL"), ("OT", "OL"),
   ("FB", "RB"), ("HB", "RB"),
   ("LS", "P")]

/-- Embedding of `normalize_position` (legend_scores.py lines 179-183): dictionary lookup
with pass-through for unknown labels. -/
def normalize_position (pos : String) : String :=
  match POSITION_MAPPINGS.lookup pos with
  | some target => target
  | none => pos

/-- Embedding of `POSITION_WEIGHTS` (legend_scores.py lines 28-153). -/
def POSITION_WEIGHTS : List (String × List (String × ℚ)) :=
  [("QB",
    [("height", 0.01), ("weight", 0.01), ("forty_time", 0.01),
     ("career_passing_yards", 0.10), ("career_passing_tds", 0.12),
     ("playoff_passing_yards", 0.18), ("playoff_passing_tds", 0.35),
     ("career_seasons", 0.05), ("draft_pick", 0.02), ("pro_bowls", 0.08),
     ("all_pros", 0.12), ("hof_flag", 0.09)]),
   ("RB",
    [("height", 0.03), ("weight", 0.08), ("forty_time", 0.15),
     ("career_rushing_yards", 0.25), ("career_rushing_tds", 0.20),
     ("career_receiving_yards", 0.10), ("career_receiving_tds", 0.05),
     ("playoff_rushing_yards", 0.04), ("career_seasons", 0.05),
     ("draft_pick", 0.05), ("pro_bowls", 0.12), ("all_pros", 0.15),
     ("hof_flag", 0.06)]),
   ("WR",
    [("height", 0.06), ("weight", 0.02), ("forty_time", 0.15),
     ("vertical_jump", 0.06), ("career_receiving_yards", 0.25),
     ("career_receiving_tds", 0.20), ("playoff_receiving_yards", 0.06),
     ("playoff_receiving_tds", 0.04), ("career_seasons", 0.05),
     ("draft_pick", 0.06), ("pro_bowls", 0.12), ("all_pros", 0.15),
     ("hof_flag", 0.06)]),
   ("TE",
    [("height", 0.15), ("weight", 0.12), ("forty_time", 0.10),
     ("career_receiving_yards", 0.20), ("career_receiving_tds", 0.15),
     ("playoff_receiving_yards", 0.05), ("career_seasons", 0.05),
     ("draft_pick", 0.08), ("pro_bowls", 0.12), ("all_pros", 0.15),
     ("hof_flag", 0.06)]),
   ("OL",
    [("height", 0.20), ("weight", 0.20), ("bench_press", 0.12),
     ("career_seasons", 0.15), ("total_career_games", 0.10),
     ("draft_pick", 0.08), ("pro_bowls", 0.12), ("all_pros", 0.15),
     ("hof_flag", 0.08)]),
   ("DL",
    [("height", 0.10), ("weight", 0.15), ("forty_time", 0.10),
     ("bench_press", 0.10), ("def_sacks", 0.25), ("def_solo_tackles", 0.15),
     ("career_seasons", 0.05), ("draft_pick", 0.06), ("pro_bowls", 0.12),
     ("all_pros", 0.15), ("hof_flag", 0.07)]),
   ("LB",
    [("height", 0.08), ("weight", 0.12), ("forty_time", 0.15),
     ("vertical_jump", 0.08), ("def_solo_tackles", 0.25), ("def_sacks", 0.15),
     ("def_ints", 0.08), ("career_seasons", 0.05), ("draft_pick", 0.06),
     ("pro_bowls", 0.12), ("all_pros", 0.15), ("hof_flag", 0.06)]),
   ("DB",
    [("height", 0.08), ("weight", 0.04), ("forty_time", 0.25),
     ("vertical_jump", 0.12), ("def_ints", 0.25), ("def_solo_tackles", 0.12),
     ("career_seasons", 0.05), ("draft_pick", 0.06), ("pro_bowls", 0.12),
     ("all_pros", 0.15), ("hof_flag", 0.06)]),
   ("K",
    [("height", 0.05), ("weight", 0.05), ("draft_pick", 0.20),
     ("pro_bowls", 0.30), ("all_pros", 0.30), ("hof_flag", 0.10)]),
   ("P",
    [("height", 0.05), ("weight", 0.05), ("draft_pick", 0.20),
     ("pro_bowls", 0.30), ("all_pros", 0.30), ("hof_flag", 0.10)])]

/-- One `if not pd.isna(row.get(col)): scores[name] = percentile_score(...)`
block of `calculate_attribute_scores`: the dict entry is present exactly when
the cell of the row is non-null. -/
def guardedScore (name : String) (v : Cell) (col : List Cell) (hb : Bool) :
    List (String × ℚ) :=
  match v with
  | some _ => [(name, percentile_score v col hb)]
  | none => []

/-- The draft-pick block of `calculate_attribute_scores`
(legend_scores.py lines 232-240): a non-null pick other than the undrafted
sentinel 999 is percentile-ranked with lower-is-better; the sentinel and a
null pick both fall to the `else` branch scoring 10.0. -/
def draftScore (v : Cell) (col : List Cell) : List (String × ℚ) :=
  match v with
  | some x =>
    if x ≠ 999 then [("draft_pick", percentile_score (some x) col false)]
    else [("draft_pick", 10)]
  | none => [("draft_pick", 10)]

/-- Embedding of `calculate_attribute_scores` (legend_scores.py lines 199-335), as the
association list of dict entries in insertion order.  `pro_bowls` and
`all_pros` are always passed to `percentile_score` (which maps a null value
to 50.0), and `hof_flag` is scored by Python truthiness of the cell. -/
def calculate_attribute_scores (row : PlayerRow) (position_data : List PlayerRow) :
    List (String × ℚ) :=
  guardedScore "height" row.height_in (position_data.map (·.height_in)) true
  ++ guardedScore "weight" row.weight_lb (position_data.map (·.weight_lb)) true
  ++ guardedScore "forty_time" row.forty_time (position_data.map (·.forty_time)) false
  ++ guardedScore "vertical_jump" row.vertical_jump (position_data.map (·.vertical_jump)) true
  ++ guardedScore "bench_press" row.bench_press (position_data.map (·.bench_press)) true
  ++ draftScore row.draft_pick (position_data.map (·.draft_pick))
  ++ guardedScore "career_passing_yards" row.career_passing_yards
       (position_data.map (·.career_passing_yards)) true
  ++ guardedScore "career_passing_tds" row.career_passing_tds
       (position_data.map (·.career_passing_tds)) true
  ++ guardedScore "career_rushing_yards" row.career_rushing_yards
       (position_data.map (·.career_rushing_yards)) true
  ++ guardedScore "career_rushing_tds" row.career_rushing_tds
       (position_data.map (·.career_rushing_tds)) true
  ++ guardedScore "career_receiving_yards" row.career_receiving_yards
       (position_data.map (·.career_receiving_yards)) true
  ++ guardedScore "career_receiving_tds" row.career_receiving_tds
       (position_data.map (·.career_receiving_tds)) true
  ++ guardedScore "playoff_passing_yards" row.playoff_passing_yards
       (position_data.map (·.playoff_passing_yards)) true
  ++ guardedScore "playoff_passing_tds" row.playoff_passing_tds
       (position_data.map (·.playoff_passing_tds)) true
  ++ guardedScore "playoff_rushing_yards" row.playoff_rushing_yards
       (position_data.map (·.playoff_rushing_yards)) true
  ++ guardedScore "playoff_receiving_yards" row.playoff_receiving_yards
       (position_data.map (·.playoff_receiving_yards)) true
  ++ guardedScore "playoff_receiving_tds" row.playoff_receiving_tds
       (position_data.map (·.playoff_receiving_tds)) true
  ++ guardedScore "def_solo_tackles" row.def_solo_tackles
       (position_data.map (·.def_solo_tackles)) true
  ++ guardedScore "def_sacks" row.def_sacks (position_data.map (·.def_sacks)) true
  ++ guardedScore "def_ints" row.def_ints (position_data.map (·.def_ints)) true
  ++ guardedScore "career_seasons" row.career_seasons
       (position_data.map (·.career_seasons)) true
  ++ guardedScore "total_career_games" row.total_career_games
       (position_data.map (·.total_career_games)) true
  ++ [("pro_bowls", percentile_score row.pro_bowls (position_data.map (·.pro_bowls)) true)]
  ++ [("all_pros", percentile_score row.all_pros (position_data.map (·.all_pros)) true)]
  ++ [("hof_flag", if pyTruthy row.hof_flag then 100 else 0)]

/-- The body of the `for attribute, weight in weights.items()` loop of
`calculate_legend_score` (legend_scores.py lines 348-355), accumulating the
pair `(total_score, total_weight)`: a present attribute contributes its score
times the weight, an absent one the neutral 50 times the weight, and either
way the weight joins the weight sum. -/
def legendStep (attribute_scores : List (String × ℚ)) (tt : ℚ × ℚ) (aw : String × ℚ) :
    ℚ × ℚ :=
  match attribute_scores.lookup aw.1 with
  | some s => (tt.1 + s * aw.2, tt.2 + aw.2)
  | none => (tt.1 + 50 * aw.2, tt.2 + aw.2)

/-- Embedding of `calculate_legend_score` (legend_scores.py lines 338-360), with the
`logger.warning` fallback event recorded in the second component. -/
def calculate_legend_score_w (attribute_scores : List (String × ℚ)) (position : String) :
    ℚ × Bool :=
  let fallback := (POSITION_WEIGHTS.lookup position).isNone
  let pos := if fallback then "LB" else position
  let weights := (POSITION_WEIGHTS.lookup pos).getD []
  let acc := weights.foldl (legendStep attribute_scores) (0, 0)
  (if acc.2 = 0 then 50 else acc.1 / acc.2, fallback)

/-- The return value of `calculate_legend_score`. -/
def calculate_legend_score (attribute_scores : List (String × ℚ)) (position : String) : ℚ :=
  (calculate_legend_score_w attribute_scores position).1

/-- Round-half-to-even of a rational, as the Python builtin `round` on an exact value. -/
def roundHalfEven (q : ℚ) : ℤ :=
  if q - ⌊q⌋ < 1/2 then ⌊q⌋
  else if 1/2 < q - ⌊q⌋ then ⌊q⌋ + 1
  else if 2 ∣ ⌊q⌋ then ⌊q⌋ else ⌊q⌋ + 1

/-- Behaviour of the Python builtin `round(x, 2)` on an exact rational value. -/
def round2 (q : ℚ) : ℚ := (roundHalfEven (q * 100) : ℚ) / 100

/-- One output row of `process_players`. -/
structure ResultRow where
  player_id : String
  full_name : String
  position : String
  legend_score : ℚ
  source_tier : ℕ
deriving Repr, DecidableEq

/-- Embedding of `df["primary_pos"].apply(normalize_position)` on one row: `normalize_position`
maps a NaN label to itself (NaN is not a key of `POSITION_MAPPINGS`), so the
normalized column is null exactly where `primary_pos` is null. -/
def normPos (r : PlayerRow) : Option String := r.primary_pos.map normalize_position

/-- Behaviour of `pandas.Series.unique`: distinct values in order of first appearance. -/
def uniqueList : List (Option String) → List (Option String)
  | [] => []
  | x :: xs => x :: uniqueList (xs.filter fun y => y ≠ x)
termination_by l => l.length
decreasing_by
  simp only [List.length_cons]
  exact Nat.lt_succ_of_le (xs.length_filter_le _)

/-- The result-row constructor of the `process_players` inner loop
(legend_scores.py lines 382-396). -/
def scoreRow (pos : String) (position_df : List PlayerRow) (row : PlayerRow) : ResultRow :=
  { player_id := row.player_id
    full_name := row.full_name
    position := pos
    legend_score :=
      round2 (calculate_legend_score (calculate_attribute_scores row position_df) pos)
    source_tier := 2 }

/-- One iteration of the `for position in df["normalized_pos"].unique()` loop
(legend_scores.py lines 370-402): a null group key is skipped, a group smaller
than `min_position_players` is skipped, and otherwise every member row yields
one result row. -/
def processGroup (df : List PlayerRow) (min_position_players : ℕ) :
    Option String → List ResultRow
  | none => []
  | some pos =>
    let position_df := df.filter fun r => normPos r = some pos
    if position_df.length < min_position_players then []
    else position_df.map (scoreRow pos position_df)

/-- Embedding of `process_players` (legend_scores.py lines 363-404).  The Python default
for `min_position_players` is 3. -/
def process_players (df : List PlayerRow) (min_position_players : ℕ) : List ResultRow :=
  ((uniqueList (df.map normPos)).map (processGroup df min_position_players)).flatten

/-! ### Helper lemmas -/

/-- A successful association-list lookup exhibits a member pair. -/
theorem mem_of_lookup_eq_some {α β : Type} [BEq α] [LawfulBEq α]
    {l : List (α × β)} {k : α} {b : β} (h : l.lookup k = some b) : (k, b) ∈ l := by
  rcases List.lookup_eq_some_iff.mp h with ⟨l₁, l₂, rfl, -⟩
  exact List.mem_append_right _ (List.mem_cons_self _ _)

/-- No target (value) of the position alias table is itself a key. -/
theorem POSITION_MAPPINGS_targets_not_keys :
    ∀ p ∈ POSITION_MAPPINGS, POSITION_MAPPINGS.lookup p.2 = none := by decide

/-! ### C1: percentile_score specification -/

/-- C1: `percentile_score` returns exactly 50.0 when the value is missing or
the peer collection is empty; otherwise it is the fraction of peers strictly
below the value (higher-is-better) resp. strictly above it (lower-is-better),
times 100, where a null peer cell satisfies neither comparison but still
counts in the denominator. -/
theorem percentile_score_spec (v : ℚ) (P : List Cell) (hb : Bool) :
    percentile_score none P hb = 50 ∧
    percentile_score (some v) [] hb = 50 ∧
    (P ≠ [] →
      percentile_score (some v) P true =
        ((P.filter fun p => match p with | some x => decide (x < v) | none => false).length : ℚ)
          / (P.length : ℚ) * 100 ∧
      percentile_score (some v) P false =
        ((P.filter fun p => match p with | some x => decide (v < x) | none => false).length : ℚ)
          / (P.length : ℚ) * 100) := by
  refine ⟨rfl, by cases hb <;> rfl, fun hP => ⟨?_, ?_⟩⟩ <;>
    simp [percentile_score, hP, List.countP_eq_length_filter]

/-- Witness for C1 on a concrete nonempty peer list. -/
theorem percentile_score_spec_witness :
    percentile_score (some 30) [some 10, some 20, some 30] true =
      (([some 10, some 20, some 30].filter
          fun p => match p with | some x => decide (x < (30 : ℚ)) | none => false).length : ℚ)
        / (([some (10 : ℚ), some 20, some 30] : List Cell).length : ℚ) * 100 :=
  ((percentile_score_spec 30 [some 10, some 20, some 30] true).2.2 (by decide)).1

/-! ### C9: normalizer idempotence -/

/-- C9: `normalize_position` is idempotent on every raw label, known or
unknown, since no target of the alias table is itself a key. -/
theorem normalize_position_idempotent (x : String) :
    normalize_position (normalize_position x) = normalize_position x := by
  unfold normalize_position
  cases h : POSITION_MAPPINGS.lookup x with
  | none => simp [h]
  | some t =>
    have ht : POSITION_MAPPINGS.lookup t = none :=
      POSITION_MAPPINGS_targets_not_keys (x, t) (mem_of_lookup_eq_some h)
    rw [ht]

/-! ### C5: unknown-position fallback -/

/-- C5: when the canonical position has no weight-table entry,
`calculate_legend_score` does not fail: it returns the score computed under
the default `LB` weight table, and the warning event is emitted. -/
theorem unknown_position_fallback (S : List (String × ℚ)) (p : String)
    (h : POSITION_WEIGHTS.lookup p = none) :
    calculate_legend_score_w S p = (calculate_legend_score S "LB", true) := by
  simp [calculate_legend_score_w, calculate_legend_score, h]

/-- Witness for C5 at the unknown label "XX". -/
theorem unknown_position_fallback_witness :
    calculate_legend_score_w [] "XX" = (calculate_legend_score [] "LB", true) :=
  unknown_position_fallback [] "XX" (by decide)

/-! ### C8: percentile monotonicity -/

/-- C8: holding the peer collection fixed, `percentile_score` with
`higher_is_better` is monotone in the value. -/
theorem percentile_score_monotone (P : List Cell) (v₁ v₂ : ℚ) (h : v₁ < v₂) :
    percentile_score (some v₁) P true ≤ percentile_score (some v₂) P true := by
  unfold percentile_score
  by_cases hP : P.isEmpty
  · simp [hP]
  · simp only [hP, Bool.false_eq_true, if_false, if_true]
    have hlen : (0 : ℚ) < (P.length : ℚ) := by
      have : P ≠ [] := by simpa using hP
      exact_mod_cast List.length_pos.mpr this
    have hcount : (P.countP fun p => match p with | some x => decide (x < v₁) | none => false)
        ≤ P.countP fun p => match p with | some x => decide (x < v₂) | none => false := by
      apply List.countP_mono_left
      intro x _ hx
      cases x with
      | none => simp at hx
      | some y =>
        simp only [decide_eq_true_eq] at hx ⊢
        exact lt_trans hx h
    have hc : ((P.countP fun p => match p with | some x => decide (x < v₁) | none => false : ℕ) : ℚ)
        ≤ ((P.countP fun p => match p with | some x => decide (x < v₂) | none => false : ℕ) : ℚ) := by
      exact_mod_cast hcount
    gcongr

/-- Witness for C8 at concrete values 1 < 2 over a concrete peer list. -/
theorem percentile_score_monotone_witness :
    percentile_score (some 1) [some 1, some 2] true ≤
      percentile_score (some 2) [some 1, some 2] true :=
  percentile_score_monotone [some 1, some 2] 1 2 (by norm_num)

/-! ### C2: aggregation formula -/

/-- The score contributed for one weight-table entry: the computed
score when present, else the neutral 50. -/
def scoreOr50 (S : List (String × ℚ)) (a : String) : ℚ :=
  match S.lookup a with
  | some s => s
  | none => 50

/-- The accumulating loop of `calculate_legend_score` computes the pair of
weighted-score sum and weight sum. -/
theorem legend_foldl_eq (S : List (String × ℚ)) :
    ∀ (W : List (String × ℚ)) (a b : ℚ),
      W.foldl (legendStep S) (a, b)
      = (a + (W.map fun aw => scoreOr50 S aw.1 * aw.2).sum,
         b + (W.map fun aw => aw.2).sum) := by
  intro W
  induction W with
  | nil => intro a b; simp
  | cons hd tl ih =>
    intro a b
    simp only [List.foldl_cons, List.map_cons, List.sum_cons]
    cases h : S.lookup hd.1 <;>
      simp only [legendStep, h, ih, scoreOr50, Prod.mk.injEq] <;> exact ⟨by ring, by ring⟩

/-- C2: for a position with a weight table `W`, `calculate_legend_score` is
the weighted average over all attributes of `W`, scoring 50 for attributes
absent from the score map, and returns 50.0 when the weight sum is zero. -/
theorem calculate_legend_score_spec (S : List (String × ℚ)) (p : String)
    (W : List (String × ℚ)) (hW : POSITION_WEIGHTS.lookup p = some W) :
    calculate_legend_score S p =
      if (W.map fun aw => aw.2).sum = 0 then 50
      else (W.map fun aw => scoreOr50 S aw.1 * aw.2).sum / (W.map fun aw => aw.2).sum := by
  simp only [calculate_legend_score, calculate_legend_score_w]
  rw [legend_foldl_eq]
  simp [hW]

/-- The kicker weight table, for the C2 witness. -/
def kickerWeights : List (String × ℚ) :=
  [("height", 0.05), ("weight", 0.05), ("draft_pick", 0.20),
   ("pro_bowls", 0.30), ("all_pros", 0.30), ("hof_flag", 0.10)]

/-- Witness for C2: the kicker table on an empty score map. -/
theorem calculate_legend_score_spec_witness :
    calculate_legend_score [] "K" =
      if (kickerWeights.map fun aw => aw.2).sum = 0 then 50
      else (kickerWeights.map fun aw => scoreOr50 [] aw.1 * aw.2).sum
        / (kickerWeights.map fun aw => aw.2).sum :=
  calculate_legend_score_spec [] "K" kickerWeights rfl

/-! ### C7: aggregate stays in range -/

/-- Every weight in every position weight table is nonnegative. -/
theorem POSITION_WEIGHTS_nonneg :
    ∀ e ∈ POSITION_WEIGHTS, ∀ aw ∈ e.2, 0 ≤ aw.2 := by
  intro e he
  fin_cases he <;> intro aw haw <;> fin_cases haw <;> norm_num

/-- The weighted average over a nonnegative weight table of scores that,
together with the neutral 50, lie in `[0, 100]`, lies in `[0, 100]`. -/
theorem weighted_avg_range (S : List (String × ℚ))
    (hS : ∀ pr ∈ S, 0 ≤ pr.2 ∧ pr.2 ≤ 100)
    (W : List (String × ℚ)) (hW : ∀ aw ∈ W, 0 ≤ aw.2) :
    0 ≤ (if (W.map fun aw => aw.2).sum = 0 then 50
         else (W.map fun aw => scoreOr50 S aw.1 * aw.2).sum / (W.map fun aw => aw.2).sum) ∧
    (if (W.map fun aw => aw.2).sum = 0 then 50
     else (W.map fun aw => scoreOr50 S aw.1 * aw.2).sum / (W.map fun aw => aw.2).sum) ≤ 100 := by
  have hscore : ∀ aw ∈ W, 0 ≤ scoreOr50 S aw.1 ∧ scoreOr50 S aw.1 ≤ 100 := by
    intro aw _
    unfold scoreOr50
    cases h : S.lookup aw.1 with
    | none => norm_num
    | some s => exact hS (aw.1, s) (mem_of_lookup_eq_some h)
  have hwsum : 0 ≤ (W.map fun aw => aw.2).sum :=
    List.sum_nonneg fun x hx => by
      rcases List.mem_map.mp hx with ⟨aw, haw, rfl⟩
      exact hW aw haw
  have htot_nonneg : 0 ≤ (W.map fun aw => scoreOr50 S aw.1 * aw.2).sum :=
    List.sum_nonneg fun x hx => by
      rcases List.mem_map.mp hx with ⟨aw, haw, rfl⟩
      exact mul_nonneg (hscore aw haw).1 (hW aw haw)
  have htot_le : (W.map fun aw => scoreOr50 S aw.1 * aw.2).sum
      ≤ 100 * (W.map fun aw => aw.2).sum := by
    rw [← List.sum_map_mul_left]
    exact List.sum_le_sum fun aw haw =>
      mul_le_mul_of_nonneg_right (hscore aw haw).2 (hW aw haw)
  by_cases hz : (W.map fun aw => aw.2).sum = 0
  · simp [hz]; norm_num
  · have hpos : 0 < (W.map fun aw => aw.2).sum := lt_of_le_of_ne hwsum (Ne.symm hz)
    simp only [hz, if_false]
    exact ⟨div_nonneg htot_nonneg hwsum, (div_le_iff₀ hpos).mpr (by linarith)⟩

/-- C7: whenever every score in the attribute-score map lies in `[0, 100]`,
`calculate_legend_score` lies in `[0, 100]`, for every position string. -/
theorem calculate_legend_score_in_range (S : List (String × ℚ)) (p : String)
    (hS : ∀ pr ∈ S, 0 ≤ pr.2 ∧ pr.2 ≤ 100) :
    0 ≤ calculate_legend_score S p ∧ calculate_legend_score S p ≤ 100 := by
  unfold calculate_legend_score calculate_legend_score_w
  simp only [legend_foldl_eq, zero_add]
  apply weighted_avg_range S hS
  intro aw haw
  set pos := if (POSITION_WEIGHTS.lookup p).isNone = true then "LB" else p with hpos
  cases h : POSITION_WEIGHTS.lookup pos with
  | none => simp [h] at haw
  | some W =>
    rw [h] at haw
    exact POSITION_WEIGHTS_nonneg (pos, W) (mem_of_lookup_eq_some h) aw (by simpa using haw)

/-- Witness for C7 on a concrete in-range score map and the QB table. -/
theorem calculate_legend_score_in_range_witness :
    0 ≤ calculate_legend_score [("height", 80), ("hof_flag", 100)] "QB" ∧
      calculate_legend_score [("height", 80), ("hof_flag", 100)] "QB" ≤ 100 :=
  calculate_legend_score_in_range [("height", 80), ("hof_flag", 100)] "QB"
    (by intro pr hpr; fin_cases hpr <;> norm_num)

/-! ### C3 and C4: missing-value handling of calculate_attribute_scores -/

/-- A player row all of whose attribute cells are null. -/
def blankRow : PlayerRow :=
  { player_id := "p0", full_name := "Blank", primary_pos := some "QB",
    height_in := none, weight_lb := none, forty_time := none,
    vertical_jump := none, bench_press := none, draft_pick := none,
    career_passing_yards := none, career_passing_tds := none,
    career_rushing_yards := none, career_rushing_tds := none,
    career_receiving_yards := none, career_receiving_tds := none,
    playoff_passing_yards := none, playoff_passing_tds := none,
    playoff_rushing_yards := none, playoff_receiving_yards := none,
    playoff_receiving_tds := none, def_solo_tackles := none, def_sacks := none,
    def_ints := none, career_seasons := none, total_career_games := none,
    pro_bowls := none, all_pros := none, hof_flag := none }

/-- C3 (evidence of the code bug): for a row whose `hof_flag` cell is null,
the code takes the truthy branch of `if row.get("hof_flag", False)` — a NaN
float is truthy in Python — and assigns the Hall-of-Fame score 100.0, where
the claim (and the surrounding intent, including the `False` default and the
`fillna(False)` call of the ingestion script) requires 0.0.  The true/false cases agree
with the claim. -/
theorem hof_missing_scores_100 :
    (calculate_attribute_scores blankRow [blankRow]).lookup "hof_flag" = some 100 ∧
    (calculate_attribute_scores { blankRow with hof_flag := some true }
        [blankRow]).lookup "hof_flag" = some 100 ∧
    (calculate_attribute_scores { blankRow with hof_flag := some false }
        [blankRow]).lookup "hof_flag" = some 0 := by
  refine ⟨?_, ?_, ?_⟩ <;>
    simp [calculate_attribute_scores, guardedScore, draftScore, pyTruthy, blankRow,
      List.lookup]

/-- C4 counterexample: a row whose `draft_pick` cell is null receives the
fixed undrafted score 10.0 for that attribute — the attribute is present in
the score map and its score is not the neutral 50.0, refuting the claim that
every missing attribute is treated neutrally. -/
theorem missing_draft_pick_not_neutral :
    (calculate_attribute_scores blankRow [blankRow]).lookup "draft_pick" = some 10 ∧
    (10 : ℚ) ≠ 50 := by
  constructor
  · simp [calculate_attribute_scores, guardedScore, draftScore, blankRow, List.lookup]
  · norm_num

/-- Lookup of a key that is not the attribute name of a guarded block skips
the block, whatever the cell of the row is. -/
theorem lookup_guardedScore_ne {k n : String} (h : (k == n) = false) (v : Cell)
    (col : List Cell) (hb : Bool) : (guardedScore n v col hb).lookup k = none := by
  cases v <;> simp [guardedScore, List.lookup_cons, h]

/-- A guarded block of a null cell is empty. -/
theorem guardedScore_none (n : String) (col : List Cell) (hb : Bool) :
    guardedScore n none col hb = [] := rfl

/-- Lookup of a key other than "draft_pick" skips the draft block. -/
theorem lookup_draftScore_ne {k : String} (h : (k == "draft_pick") = false) (v : Cell)
    (col : List Cell) : (draftScore v col).lookup k = none := by
  cases v with
  | none => simp [draftScore, List.lookup_cons, h]
  | some x => rw [draftScore]; split <;> simp [List.lookup_cons, h]

/-- The draft block of a null cell is the fixed undrafted score. -/
theorem draftScore_none (col : List Cell) : draftScore none col = [("draft_pick", 10)] := rfl

/-- Lookup of a key that differs from the key of a singleton yields none. -/
theorem lookup_singleton_ne {α : Type} {k n : String} (h : (k == n) = false) (x : α) :
    ([(n, x)] : List (String × α)).lookup k = none := by
  simp [List.lookup_cons, h]

/-- A null value scores the neutral 50. -/
theorem percentile_score_none (col : List Cell) (hb : Bool) :
    percentile_score none col hb = 50 := rfl

/-- C4 (amended): for every attribute other than `draft_pick` and `hof_flag`,
a null cell is treated as neutral — the attribute is omitted from the score
map (so the aggregator later contributes 50 × weight for it), except
`pro_bowls` and `all_pros` which stay in the map with the neutral score 50.0;
a null `draft_pick` is scored 10.0 (treated as undrafted) and a null
`hof_flag` is scored 100.0 (Python NaN truthiness, see C3).  No case is an
error: `calculate_attribute_scores` is total. -/
theorem missing_attribute_neutral (row : PlayerRow) (pdata : List PlayerRow) :
    (row.height_in = none →
      (calculate_attribute_scores row pdata).lookup "height" = none) ∧
    (row.weight_lb = none →
      (calculate_attribute_scores row pdata).lookup "weight" = none) ∧
    (row.forty_time = none →
      (calculate_attribute_scores row pdata).lookup "forty_time" = none) ∧
    (row.vertical_jump = none →
      (calculate_attribute_scores row pdata).lookup "vertical_jump" = none) ∧
    (row.bench_press = none →
      (calculate_attribute_scores row pdata).lookup "bench_press" = none) ∧
    (row.career_passing_yards = none →
      (calculate_attribute_scores row pdata).lookup "career_passing_yards" = none) ∧
    (row.career_passing_tds = none →
      (calculate_attribute_scores row pdata).lookup "career_passing_tds" = none) ∧
    (row.career_rushing_yards = none →
      (calculate_attribute_scores row pdata).lookup "career_rushing_yards" = none) ∧
    (row.career_rushing_tds = none →
      (calculate_attribute_scores row pdata).lookup "career_rushing_tds" = none) ∧
    (row.career_receiving_yards = none →
      (calculate_attribute_scores row pdata).lookup "career_receiving_yards" = none) ∧
    (row.career_receiving_tds = none →
      (calculate_attribute_scores row pdata).lookup "career_receiving_tds" = none) ∧
    (row.playoff_passing_yards = none →
      (calculate_attribute_scores row pdata).lookup "playoff_passing_yards" = none) ∧
    (row.playoff_passing_tds = none →
      (calculate_attribute_scores row pdata).lookup "playoff_passing_tds" = none) ∧
    (row.playoff_rushing_yards = none →
      (calculate_attribute_scores row pdata).lookup "playoff_rushing_yards" = none) ∧
    (row.playoff_receiving_yards = none →
      (calculate_attribute_scores row pdata).lookup "playoff_receiving_yards" = none) ∧
    (row.playoff_receiving_tds = none →
      (calculate_attribute_scores row pdata).lookup "playoff_receiving_tds" = none) ∧
    (row.def_solo_tackles = none →
      (calculate_attribute_scores row pdata).lookup "def_solo_tackles" = none) ∧
    (row.def_sacks = none →
      (calculate_attribute_scores row pdata).lookup "def_sacks" = none) ∧
    (row.def_ints = none →
      (calculate_attribute_scores row pdata).lookup "def_ints" = none) ∧
    (row.career_seasons = none →
      (calculate_attribute_scores row pdata).lookup "career_seasons" = none) ∧
    (row.total_career_games = none →
      (calculate_attribute_scores row pdata).lookup "total_career_games" = none) ∧
    (row.pro_bowls = none →
      (calculate_attribute_scores row pdata).lookup "pro_bowls" = some 50) ∧
    (row.all_pros = none →
      (calculate_attribute_scores row pdata).lookup "all_pros" = some 50) ∧
    (row.draft_pick = none →
      (calculate_attribute_scores row pdata).lookup "draft_pick" = some 10) ∧
    (row.hof_flag = none →
      (calculate_attribute_scores row pdata).lookup "hof_flag" = some 100) := by
  refine ⟨?_, ?_, ?_, ?_, ?_, ?_, ?_, ?_, ?_, ?_, ?_, ?_, ?_, ?_, ?_, ?_, ?_, ?_,
    ?_, ?_, ?_, ?_, ?_, ?_, ?_⟩ <;>
    intro h <;>
    simp only [calculate_attribute_scores, h, guardedScore_none, draftScore_none,
      List.lookup_append, lookup_guardedScore_ne, lookup_draftScore_ne,
      lookup_singleton_ne, String.reduceBEq, List.lookup_nil, List.lookup_cons_self,
      Option.none_or, Option.or_none, percentile_score_none, pyTruthy, if_true]

/-- Witness for C4 (amended) on the all-null row. -/
theorem missing_attribute_neutral_witness :
    (calculate_attribute_scores blankRow [blankRow]).lookup "height" = none ∧
    (calculate_attribute_scores blankRow [blankRow]).lookup "career_seasons" = none ∧
    (calculate_attribute_scores blankRow [blankRow]).lookup "pro_bowls" = some 50 ∧
    (calculate_attribute_scores blankRow [blankRow]).lookup "all_pros" = some 50 ∧
    (calculate_attribute_scores blankRow [blankRow]).lookup "draft_pick" = some 10 ∧
    (calculate_attribute_scores blankRow [blankRow]).lookup "hof_flag" = some 100 := by
  obtain ⟨h1, -, -, -, -, -, -, -, -, -, -, -, -, -, -, -, -, -, -, h20, -, h22,
    h23, h24, h25⟩ := missing_attribute_neutral blankRow [blankRow]
  exact ⟨h1 rfl, h20 rfl, h22 rfl, h23 rfl, h24 rfl, h25 rfl⟩

/-! ### uniqueList lemmas -/

/-- Unfolding lemma for `uniqueList` on a cons cell. -/
theorem uniqueList_cons (x : Option String) (xs : List (Option String)) :
    uniqueList (x :: xs) = x :: uniqueList (xs.filter fun y => y ≠ x) := by
  rw [uniqueList]

/-- Fuelled proof that `uniqueList` preserves membership. -/
theorem mem_uniqueList_aux :
    ∀ (n : ℕ) (l : List (Option String)), l.length ≤ n →
      ∀ a, (a ∈ uniqueList l ↔ a ∈ l)
  | _, [], _, a => by simp [uniqueList]
  | 0, _ :: _, h, _ => by simp at h
  | n + 1, x :: xs, h, a => by
    rw [uniqueList_cons]
    have hlen : (xs.filter fun y => y ≠ x).length ≤ n :=
      le_trans (xs.length_filter_le _) (Nat.le_of_succ_le_succ h)
    constructor
    · intro ha
      rcases List.mem_cons.mp ha with rfl | ha
      · exact List.mem_cons_self _ _
      · exact List.mem_cons_of_mem _
          (List.mem_of_mem_filter ((mem_uniqueList_aux n _ hlen a).mp ha))
    · intro ha
      rcases List.mem_cons.mp ha with rfl | ha
      · exact List.mem_cons_self _ _
      · by_cases hax : a = x
        · subst hax; exact List.mem_cons_self _ _
        · exact List.mem_cons_of_mem _ ((mem_uniqueList_aux n _ hlen a).mpr
            (List.mem_filter.mpr ⟨ha, by simp [hax]⟩))

/-- The function `uniqueList` preserves membership. -/
theorem mem_uniqueList (l : List (Option String)) (a : Option String) :
    a ∈ uniqueList l ↔ a ∈ l :=
  mem_uniqueList_aux l.length l le_rfl a

/-- Fuelled proof that `uniqueList` has no duplicates. -/
theorem nodup_uniqueList_aux :
    ∀ (n : ℕ) (l : List (Option String)), l.length ≤ n → (uniqueList l).Nodup
  | _, [], _ => by simp [uniqueList]
  | 0, _ :: _, h => by simp at h
  | n + 1, x :: xs, h => by
    rw [uniqueList_cons]
    have hlen : (xs.filter fun y => y ≠ x).length ≤ n :=
      le_trans (xs.length_filter_le _) (Nat.le_of_succ_le_succ h)
    refine List.nodup_cons.mpr ⟨fun hx => ?_, nodup_uniqueList_aux n _ hlen⟩
    have hmem := (mem_uniqueList_aux n _ hlen x).mp hx
    have := (List.mem_filter.mp hmem).2
    simp at this

/-- The function `uniqueList` has no duplicates. -/
theorem nodup_uniqueList (l : List (Option String)) : (uniqueList l).Nodup :=
  nodup_uniqueList_aux l.length l le_rfl

/-! ### C6: minimum group-size gate -/

/-- Every row produced by one group iteration carries the label of that group. -/
theorem processGroup_position (df : List PlayerRow) (m : ℕ) (key : Option String)
    (r : ResultRow) (hr : r ∈ processGroup df m key) : some r.position = key := by
  cases key with
  | none => simp [processGroup] at hr
  | some pos =>
    simp only [processGroup] at hr
    split at hr
    · simp at hr
    · rcases List.mem_map.mp hr with ⟨row, -, rfl⟩
      rfl

/-- Filtering the output rows of one group by position label keeps all of the
group keyed by that label and none of any other group. -/
theorem filter_processGroup (df : List PlayerRow) (m : ℕ) (pos : String)
    (key : Option String) :
    ((processGroup df m key).filter fun r => r.position = pos) =
      if key = some pos then processGroup df m key else [] := by
  by_cases hk : key = some pos
  · rw [if_pos hk]
    apply List.filter_eq_self.mpr
    intro r hr
    have := processGroup_position df m key r hr
    rw [hk] at this
    simp only [Option.some.injEq] at this
    simp [this]
  · rw [if_neg hk]
    apply List.filter_eq_nil_iff.mpr
    intro r hr
    have := processGroup_position df m key r hr
    intro hcon
    apply hk
    rw [← this]
    simpa using hcon

/-- Counting output rows of a given position label over a duplicate-free list
of group keys: only the group keyed by that label contributes. -/
theorem count_flatten_labels (df : List PlayerRow) (m : ℕ) (pos : String) :
    ∀ labels : List (Option String), labels.Nodup →
      (((labels.map (processGroup df m)).flatten.filter
          fun r => r.position = pos).length =
        if some pos ∈ labels then (processGroup df m (some pos)).length else 0) := by
  intro labels
  induction labels with
  | nil => simp
  | cons key rest ih =>
    intro hnd
    rcases List.nodup_cons.mp hnd with ⟨hk, hnd'⟩
    simp only [List.map_cons, List.flatten_cons, List.filter_append, List.length_append,
      ih hnd', filter_processGroup]
    by_cases hkey : key = some pos
    · subst hkey
      have : ¬ some pos ∈ rest := hk
      simp [this]
    · have : (some pos ∈ key :: rest) ↔ (some pos ∈ rest) := by
        constructor
        · intro hc
          rcases List.mem_cons.mp hc with hc | hc
          · exact absurd hc.symm hkey
          · exact hc
        · exact List.mem_cons_of_mem _
      simp [hkey, this]

/-- C6: in a batch run with minimum group size `m`, the number of output rows
carrying a canonical label equals the size of the group of that label when the
group has at least `m` members, and is zero when the group is smaller than
`m` (the group is skipped entirely). -/
theorem group_size_gate (df : List PlayerRow) (m : ℕ) (pos : String) :
    ((process_players df m).filter fun r => r.position = pos).length =
      if (df.filter fun r => normPos r = some pos).length < m then 0
      else (df.filter fun r => normPos r = some pos).length := by
  unfold process_players
  rw [count_flatten_labels df m pos _ (nodup_uniqueList _)]
  by_cases hmem : some pos ∈ uniqueList (df.map normPos)
  · rw [if_pos hmem]
    simp only [processGroup]
    split
    · rfl
    · rw [List.length_map]
  · rw [if_neg hmem]
    have hnm : ¬ some pos ∈ df.map normPos :=
      fun hc => hmem ((mem_uniqueList _ _).mpr hc)
    have hn : (df.filter fun r => normPos r = some pos).length = 0 := by
      rw [List.length_eq_zero]
      apply List.filter_eq_nil_iff.mpr
      intro r hr hcon
      exact hnm (List.mem_map.mpr ⟨r, hr, by simpa using hcon⟩)
    rw [hn]
    split <;> rfl

/-! ### C10: null raw position labels are silently excluded -/

/-- The normalized-position cell is non-null exactly where the raw label is. -/
theorem normPos_isSome (r : PlayerRow) : (normPos r).isSome = (r.primary_pos).isSome := by
  cases h : r.primary_pos <;> simp [normPos, h]

/-- Filtering non-null labels keeps a non-null head. -/
theorem filter_isSome_cons_some (s : String) (l : List (Option String)) :
    ((some s :: l).filter fun y => y.isSome) = some s :: l.filter fun y => y.isSome := by
  simp

/-- Filtering non-null labels drops a null head. -/
theorem filter_isSome_cons_none (l : List (Option String)) :
    ((none :: l).filter fun y => y.isSome) = l.filter fun y => y.isSome := by
  simp

/-- Fuelled proof that `uniqueList` commutes with dropping null labels. -/
theorem uniqueList_filter_isSome_aux :
    ∀ (n : ℕ) (l : List (Option String)), l.length ≤ n →
      uniqueList (l.filter fun y => y.isSome) =
        (uniqueList l).filter fun y => y.isSome
  | _, [], _ => by simp [uniqueList]
  | 0, _ :: _, h => by simp at h
  | n + 1, x :: xs, h => by
    have hlen : (xs.filter fun y => y ≠ x).length ≤ n :=
      le_trans (xs.length_filter_le _) (Nat.le_of_succ_le_succ h)
    cases x with
    | some s =>
      rw [filter_isSome_cons_some, uniqueList_cons, uniqueList_cons,
        filter_isSome_cons_some]
      congr 1
      rw [← uniqueList_filter_isSome_aux n _ hlen]
      congr 1
      rw [List.filter_filter, List.filter_filter]
      apply List.filter_congr
      intro a _
      exact Bool.and_comm _ _
    | none =>
      rw [filter_isSome_cons_none, uniqueList_cons, filter_isSome_cons_none,
        ← uniqueList_filter_isSome_aux n _ hlen]
      congr 1
      rw [List.filter_filter]
      apply List.filter_congr
      intro a _
      cases a <;> simp

/-- The function `uniqueList` commutes with dropping null labels. -/
theorem uniqueList_filter_isSome (l : List (Option String)) :
    uniqueList (l.filter fun y => y.isSome) = (uniqueList l).filter fun y => y.isSome :=
  uniqueList_filter_isSome_aux l.length l le_rfl

/-- Group keys that map to an empty block can be dropped before flattening. -/
theorem flatten_map_filter_isSome (g : Option String → List ResultRow)
    (hg : g none = []) :
    ∀ l : List (Option String),
      (((l.filter fun y => y.isSome).map g).flatten) = ((l.map g).flatten)
  | [] => by simp
  | x :: xs => by
    cases x with
    | some s =>
      simp only [List.filter_cons, Option.isSome_some, if_true, List.map_cons,
        List.flatten_cons, flatten_map_filter_isSome g hg xs]
    | none =>
      simp only [List.filter_cons, Option.isSome_none, Bool.false_eq_true, if_false,
        List.map_cons, List.flatten_cons, hg, List.nil_append,
        flatten_map_filter_isSome g hg xs]

/-- Removing the null-position rows from the input does not change any
group: null rows never match the filter of a canonical label. -/
theorem processGroup_filter_isSome (df : List PlayerRow) (m : ℕ) (key : Option String) :
    processGroup (df.filter fun r => (r.primary_pos).isSome) m key =
      processGroup df m key := by
  cases key with
  | none => rfl
  | some pos =>
    simp only [processGroup]
    have hfil : ((df.filter fun r => (r.primary_pos).isSome).filter
          fun r => normPos r = some pos)
        = df.filter fun r => normPos r = some pos := by
      rw [List.filter_filter]
      apply List.filter_congr
      intro r _
      cases h : r.primary_pos <;> simp [normPos, h]
    rw [hfil]

/-- C10: a player whose raw position label is null produces no output row —
`process_players` on any input equals `process_players` on the input with
the null-position rows removed, so the whole null-label group is silently
excluded before any scoring and no other group is affected. -/
theorem null_position_rows_excluded (df : List PlayerRow) (m : ℕ) :
    process_players df m =
      process_players (df.filter fun r => (r.primary_pos).isSome) m := by
  unfold process_players
  have hg : processGroup (df.filter fun r => (r.primary_pos).isSome) m =
      processGroup df m :=
    funext (processGroup_filter_isSome df m)
  rw [hg]
  have hmaps : ((df.filter fun r => (r.primary_pos).isSome).map normPos)
      = (df.map normPos).filter fun y => y.isSome := by
    rw [List.filter_map]
    congr 1
    apply List.filter_congr
    intro r _
    exact (normPos_isSome r).symm
  rw [hmaps, uniqueList_filter_isSome]
  exact (flatten_map_filter_isSome (processGroup df m) rfl _).symm

end LegendScores
